import Mathlib

/-!
Verification development for the sub-GHz heat-map simulator
(`lpwan_sim` core plus the vectorized shadowing path of `app.py`).

The Python code is shallowly embedded: positions, powers, frequencies and
attenuations are exact rationals; signal values computed through `log10`,
`sqrt` and `10^x` live in `ℝ` (the idealized semantics of the float code).
Grids are modelled pointwise: a grid is a function from a cell's `(x, y)`
coordinate to its value, and NumPy's element-wise operations become
pointwise operations on those functions.
-/

namespace LpwanSim

/-! ## Geometry: `segments_intersect` (environment.py) -/

/-- Cross-product orientation test `_cross` of `environment.segments_intersect`. -/
def cross2 (o a b : ℚ × ℚ) : ℚ :=
  (a.1 - o.1) * (b.2 - o.2) - (a.2 - o.2) * (b.1 - o.1)

/-- Bounding-box containment test `_on_segment` of `environment.segments_intersect`. -/
def on_segment (o a b : ℚ × ℚ) : Prop :=
  (min o.1 b.1 ≤ a.1 ∧ a.1 ≤ max o.1 b.1) ∧ (min o.2 b.2 ≤ a.2 ∧ a.2 ≤ max o.2 b.2)

instance (o a b : ℚ × ℚ) : Decidable (on_segment o a b) := by
  unfold on_segment; infer_instance

/-- `environment.segments_intersect`: proper-crossing test via cross-product signs,
plus collinear / endpoint-on-segment handling (the Python `if`/`return True`
chain, as the disjunction of its cases). -/
def segments_intersect (p1 p2 p3 p4 : ℚ × ℚ) : Prop :=
  let d1 := cross2 p3 p4 p1
  let d2 := cross2 p3 p4 p2
  let d3 := cross2 p1 p2 p3
  let d4 := cross2 p1 p2 p4
  (((0 < d1 ∧ d2 < 0) ∨ (d1 < 0 ∧ 0 < d2)) ∧ ((0 < d3 ∧ d4 < 0) ∨ (d3 < 0 ∧ 0 < d4)))
  ∨ (d1 = 0 ∧ on_segment p3 p1 p4)
  ∨ (d2 = 0 ∧ on_segment p3 p2 p4)
  ∨ (d3 = 0 ∧ on_segment p1 p3 p2)
  ∨ (d4 = 0 ∧ on_segment p1 p4 p2)

instance (p1 p2 p3 p4 : ℚ × ℚ) : Decidable (segments_intersect p1 p2 p3 p4) := by
  unfold segments_intersect; infer_instance

/-! ## Obstacles and materials (environment.py) -/

/-- `environment.MATERIAL_ATTENUATION`: material name → attenuation in dB. -/
def MATERIAL_ATTENUATION : List (String × ℚ) :=
  [("drywall", 3), ("wood", 4), ("glass", 2), ("concrete", 12), ("brick", 10), ("metal", 20)]

/-- `environment.Obstacle`: line-segment obstacle with material label. -/
structure Obstacle where
  start_point : ℚ × ℚ
  end_point : ℚ × ℚ
  attenuation_db : ℚ
  material : String
  deriving DecidableEq

/-- ASCII lowercasing of one character (Python `str.lower` on the ASCII range). -/
def lowerChar (c : Char) : Char :=
  if 'A' ≤ c ∧ c ≤ 'Z' then Char.ofNat (c.toNat + 32) else c

/-- Python's `material.lower()` (ASCII). -/
def lowerStr (s : String) : String := ⟨s.data.map lowerChar⟩

/-- `Obstacle.from_material`: build an obstacle from a preset material;
`none` models the `ValueError` raised on an unknown preset. -/
def Obstacle.from_material (start_point end_point : ℚ × ℚ) (material : String) :
    Option Obstacle :=
  match MATERIAL_ATTENUATION.lookup (lowerStr material) with
  | none => none
  | some att => some ⟨start_point, end_point, att, lowerStr material⟩

/-- `Environment.obstacle_attenuation` body: loop over the obstacle list adding
`attenuation_db` for each obstacle whose segment intersects `(x1,y1)→(x2,y2)`. -/
def attenuationOverList (obstacles : List Obstacle) (x1 y1 x2 y2 : ℚ) : ℚ :=
  obstacles.foldl
    (fun total obs =>
      if segments_intersect (x1, y1) (x2, y2) obs.start_point obs.end_point then
        total + obs.attenuation_db
      else total)
    0

/-! ## `interference.overlap_factor` (propagation/interference.py) -/

/-- `overlap_factor`: spectral overlap ratio between two channels. -/
def overlap_factor (f1_mhz bw1_khz f2_mhz bw2_khz : ℚ) : ℚ :=
  let lo1 := f1_mhz - bw1_khz / 2000
  let hi1 := f1_mhz + bw1_khz / 2000
  let lo2 := f2_mhz - bw2_khz / 2000
  let hi2 := f2_mhz + bw2_khz / 2000
  let overlap := max 0 (min hi1 hi2 - max lo1 lo2)
  let width2 := bw2_khz / 1000
  if 0 < width2 then overlap / width2 else 0

/-! ## Vectorized ray/rectangle shadowing (app.py) -/

/-- One edge test of `app._ray_intersects_rect_vectorized` for a vertical edge
`x = e`: the parameter `t` is computed when the `|dx| > 1e-6` mask holds and
left at the `-1` sentinel otherwise, then the crossing is accepted when
`t ∈ (0.01, 0.99)` and the intersection's y lies within the edge's span. -/
def rayHitVEdge (tx_x tx_y dx dy e ry rh : ℚ) : Prop :=
  let t := if 1/1000000 < |dx| then (e - tx_x) / dx else -1
  let y := tx_y + t * dy
  1/100 < t ∧ t < 99/100 ∧ ry ≤ y ∧ y ≤ ry + rh

/-- Horizontal-edge test of `app._ray_intersects_rect_vectorized` for `y = e`. -/
def rayHitHEdge (tx_x tx_y dx dy e rx rw : ℚ) : Prop :=
  let t := if 1/1000000 < |dy| then (e - tx_y) / dy else -1
  let x := tx_x + t * dx
  1/100 < t ∧ t < 99/100 ∧ rx ≤ x ∧ x ≤ rx + rw

instance (tx_x tx_y dx dy e ry rh : ℚ) : Decidable (rayHitVEdge tx_x tx_y dx dy e ry rh) := by
  unfold rayHitVEdge; infer_instance

instance (tx_x tx_y dx dy e rx rw : ℚ) : Decidable (rayHitHEdge tx_x tx_y dx dy e rx rw) := by
  unfold rayHitHEdge; infer_instance

/-- The `result` mask of `app._ray_intersects_rect_vectorized` at one cell:
the ray hits one of the rectangle's four boundary edges. -/
def rayHitsRect (tx_x tx_y cx cy rx ry rw rh : ℚ) : Prop :=
  rayHitVEdge tx_x tx_y (cx - tx_x) (cy - tx_y) rx ry rh ∨
  rayHitVEdge tx_x tx_y (cx - tx_x) (cy - tx_y) (rx + rw) ry rh ∨
  rayHitHEdge tx_x tx_y (cx - tx_x) (cy - tx_y) ry rx rw ∨
  rayHitHEdge tx_x tx_y (cx - tx_x) (cy - tx_y) (ry + rh) rx rw

instance (tx_x tx_y cx cy rx ry rw rh : ℚ) :
    Decidable (rayHitsRect tx_x tx_y cx cy rx ry rw rh) := by
  unfold rayHitsRect; infer_instance

/-- The `inside` mask of `app._ray_intersects_rect_vectorized`: the cell's
point lies inside the rectangle (inclusive bounds). -/
def insideRect (cx cy rx ry rw rh : ℚ) : Prop :=
  rx ≤ cx ∧ cx ≤ rx + rw ∧ ry ≤ cy ∧ cy ≤ ry + rh

instance (cx cy rx ry rw rh : ℚ) : Decidable (insideRect cx cy rx ry rw rh) := by
  unfold insideRect; infer_instance

/-- The attenuation one rectangle adds at one cell in `app._apply_obstacle_shadows`:
`att_flat[inside] += att * 2; att_flat[hits & ~inside] += att`. -/
def rectContribution (tx_x tx_y cx cy rx ry rw rh att : ℚ) : ℚ :=
  if insideRect cx cy rx ry rw rh then 2 * att
  else if rayHitsRect tx_x tx_y cx cy rx ry rw rh then att
  else 0

/-- Spec-side predicate, as the spec words it: the ray from `(tx_x,tx_y)` to
`(cx,cy)` crosses one of the rectangle's four edges with parameter
`t ∈ (0.01, 0.99)` and the intersection point within the edge's span, each
edge's `t` being defined by the parametric line equation whenever the ray is
not parallel to that edge family. -/
def specCrossing (tx_x tx_y cx cy rx ry rw rh : ℚ) : Prop :=
  let dx := cx - tx_x
  let dy := cy - tx_y
  (dx ≠ 0 ∧ 1/100 < (rx - tx_x) / dx ∧ (rx - tx_x) / dx < 99/100 ∧
    ry ≤ tx_y + (rx - tx_x) / dx * dy ∧ tx_y + (rx - tx_x) / dx * dy ≤ ry + rh) ∨
  (dx ≠ 0 ∧ 1/100 < (rx + rw - tx_x) / dx ∧ (rx + rw - tx_x) / dx < 99/100 ∧
    ry ≤ tx_y + (rx + rw - tx_x) / dx * dy ∧ tx_y + (rx + rw - tx_x) / dx * dy ≤ ry + rh) ∨
  (dy ≠ 0 ∧ 1/100 < (ry - tx_y) / dy ∧ (ry - tx_y) / dy < 99/100 ∧
    rx ≤ tx_x + (ry - tx_y) / dy * dx ∧ tx_x + (ry - tx_y) / dy * dx ≤ rx + rw) ∨
  (dy ≠ 0 ∧ 1/100 < (ry + rh - tx_y) / dy ∧ (ry + rh - tx_y) / dy < 99/100 ∧
    rx ≤ tx_x + (ry + rh - tx_y) / dy * dx ∧ tx_x + (ry + rh - tx_y) / dy * dx ≤ rx + rw)

instance (tx_x tx_y cx cy rx ry rw rh : ℚ) :
    Decidable (specCrossing tx_x tx_y cx cy rx ry rw rh) := by
  unfold specCrossing; infer_instance

/-- Spec-side predicate amended with the code's degeneracy masks: a crossing of
a vertical edge only counts when `|Δx| > 1e-6`, of a horizontal edge only when
`|Δy| > 1e-6`. -/
def maskedCrossing (tx_x tx_y cx cy rx ry rw rh : ℚ) : Prop :=
  let dx := cx - tx_x
  let dy := cy - tx_y
  (1/1000000 < |dx| ∧ 1/100 < (rx - tx_x) / dx ∧ (rx - tx_x) / dx < 99/100 ∧
    ry ≤ tx_y + (rx - tx_x) / dx * dy ∧ tx_y + (rx - tx_x) / dx * dy ≤ ry + rh) ∨
  (1/1000000 < |dx| ∧ 1/100 < (rx + rw - tx_x) / dx ∧ (rx + rw - tx_x) / dx < 99/100 ∧
    ry ≤ tx_y + (rx + rw - tx_x) / dx * dy ∧ tx_y + (rx + rw - tx_x) / dx * dy ≤ ry + rh) ∨
  (1/1000000 < |dy| ∧ 1/100 < (ry - tx_y) / dy ∧ (ry - tx_y) / dy < 99/100 ∧
    rx ≤ tx_x + (ry - tx_y) / dy * dx ∧ tx_x + (ry - tx_y) / dy * dx ≤ rx + rw) ∨
  (1/1000000 < |dy| ∧ 1/100 < (ry + rh - tx_y) / dy ∧ (ry + rh - tx_y) / dy < 99/100 ∧
    rx ≤ tx_x + (ry + rh - tx_y) / dy * dx ∧ tx_x + (ry + rh - tx_y) / dy * dx ≤ rx + rw)

instance (tx_x tx_y cx cy rx ry rw rh : ℚ) :
    Decidable (maskedCrossing tx_x tx_y cx cy rx ry rw rh) := by
  unfold maskedCrossing; infer_instance

/-! ## Path-loss models (propagation/pathloss.py) -/

/-- `pathloss.free_space_path_loss`: FSPL in dB with the distance (in km)
clamped below at `1e-6` before the log, exactly as `np.clip(d_km, 1e-6, None)`. -/
noncomputable def free_space_path_loss (distance_m freq_mhz : ℝ) : ℝ :=
  let d_km := max (distance_m / 1000) (1/1000000)
  20 * Real.logb 10 d_km + 20 * Real.logb 10 freq_mhz + 32.44

/-- `pathloss.log_distance_path_loss`: `PL(d) = PL_fspl(d0) + 10 n log10(d/d0)`,
with the distance clamped below at `d0`. -/
noncomputable def log_distance_path_loss (distance_m freq_mhz n d0 : ℝ) : ℝ :=
  let pl0 := free_space_path_loss d0 freq_mhz
  let d := max distance_m d0
  pl0 + 10 * n * Real.logb 10 (d / d0)

/-! ## Devices (core/device.py) and the Environment (core/environment.py) -/

/-- `protocols.base.Protocol`: value object of a protocol configuration. -/
structure Protocol where
  name : String
  frequency_mhz : ℚ
  bandwidth_khz : ℚ
  max_tx_power_dbm : ℚ
  sensitivity_dbm : ℚ
  deriving DecidableEq

/-- `device.Transmitter`. -/
structure Transmitter where
  x : ℚ
  y : ℚ
  protocol : Protocol
  tx_power_dbm : ℚ
  label : String
  antenna_gain_dbi : ℚ
  deriving DecidableEq

/-- `Transmitter.eirp_dbm`. -/
def Transmitter.eirp_dbm (tx : Transmitter) : ℚ :=
  tx.tx_power_dbm + tx.antenna_gain_dbi

/-- `device.Gateway`. -/
structure Gateway where
  x : ℚ
  y : ℚ
  protocol : Protocol
  sensitivity_dbm : ℚ
  antenna_gain_dbi : ℚ
  label : String
  deriving DecidableEq

/-- `device.NoiseSource`. -/
structure NoiseSource where
  x : ℚ
  y : ℚ
  power_dbm : ℚ
  frequency_mhz : ℚ
  bandwidth_khz : ℚ
  label : String
  deriving DecidableEq

/-- `environment.Environment`: spatial extent plus device/obstacle registries.
The coordinate arrays `xs`/`ys` are derived from width/height/resolution. -/
structure Environment where
  width : ℚ
  height : ℚ
  resolution : ℚ
  transmitters : List Transmitter
  gateways : List Gateway
  noise_sources : List NoiseSource
  obstacles : List Obstacle

/-- `np.arange(0, stop, step)` over exact rationals: `⌈stop/step⌉` points. -/
def arangeQ (stop step : ℚ) : List ℚ :=
  (List.range ⌈stop / step⌉₊).map (fun i => (i : ℚ) * step)

/-- The environment's x coordinates, `np.arange(0, width, resolution)`. -/
def Environment.xs (env : Environment) : List ℚ := arangeQ env.width env.resolution

/-- The environment's y coordinates, `np.arange(0, height, resolution)`. -/
def Environment.ys (env : Environment) : List ℚ := arangeQ env.height env.resolution

/-- All grid cells as `(x, y)` coordinate pairs, row-major as in `np.meshgrid`. -/
def Environment.cells (env : Environment) : List (ℚ × ℚ) :=
  env.ys.flatMap (fun y => env.xs.map (fun x => (x, y)))

/-- `Environment.distance_grid` at one cell: Euclidean distance clamped below
at one resolution unit (`.clip(min=self.resolution)`). -/
noncomputable def Environment.distance (env : Environment) (x y : ℚ) (c : ℚ × ℚ) : ℝ :=
  max (Real.sqrt (((c.1 : ℝ) - (x : ℝ)) ^ 2 + ((c.2 : ℝ) - (y : ℝ)) ^ 2)) (env.resolution : ℝ)

/-- `Environment.obstacle_attenuation`: cumulative dB over the obstacle list. -/
def Environment.obstacle_attenuation (env : Environment) (x1 y1 x2 y2 : ℚ) : ℚ :=
  attenuationOverList env.obstacles x1 y1 x2 y2

/-! ## The simulation engine (core/simulation.py) -/

/-- `simulation.Simulation` configuration (Python defaults: model
`"log-distance"`, exponent 2.7, noise floor −120, no fading, noise figure 6). -/
structure Simulation where
  env : Environment
  pathloss_model : String
  pathloss_exponent : ℚ
  noise_floor_dbm : ℚ
  shadow_fading_std : ℚ
  multipath_fading : Bool
  noise_figure_db : ℚ

/-- `Simulation._path_loss`: dispatch on the model name. -/
noncomputable def Simulation.path_loss (sim : Simulation) (distance : ℝ) (freq_mhz : ℚ) : ℝ :=
  if sim.pathloss_model = "fspl" then free_space_path_loss distance (freq_mhz : ℝ)
  else log_distance_path_loss distance (freq_mhz : ℝ) (sim.pathloss_exponent : ℝ) 1

/-- The random draws `np.random.normal` consults during `run`, indexed by
transmitter index and cell: one standard-normal field for shadow fading and two
for Rayleigh multipath fading. -/
structure RandomState where
  shadow : ℕ → ℚ × ℚ → ℝ
  mpX : ℕ → ℚ × ℚ → ℝ
  mpY : ℕ → ℚ × ℚ → ℝ

/-- An arbitrary fixed random state (all draws zero). -/
noncomputable def zeroRng : RandomState := ⟨fun _ _ => 0, fun _ _ => 0, fun _ _ => 0⟩

/-- The RSSI grid of one transmitter at one cell (`Simulation.run`, first loop):
EIRP − (path loss + obstacle attenuation), plus optional shadow fading and
optional Rayleigh multipath fading. -/
noncomputable def Simulation.rssiCell (sim : Simulation) (rng : RandomState)
    (idx : ℕ) (tx : Transmitter) (c : ℚ × ℚ) : ℝ :=
  let dist := sim.env.distance tx.x tx.y c
  let pl := sim.path_loss dist tx.protocol.frequency_mhz +
    (sim.env.obstacle_attenuation tx.x tx.y c.1 c.2 : ℝ)
  let rssi0 := (tx.eirp_dbm : ℝ) - pl
  let rssi1 :=
    if 0 < sim.shadow_fading_std then
      rssi0 + (sim.shadow_fading_std : ℝ) * rng.shadow idx c
    else rssi0
  if sim.multipath_fading then
    let r := Real.sqrt ((rng.mpX idx c) ^ 2 + (rng.mpY idx c) ^ 2) / Real.sqrt 2
    rssi1 + 20 * Real.logb 10 (max r (1/100))
  else rssi1

/-- `label = tx.label or f"tx_{idx}"`. -/
def labelOf (idx : ℕ) (tx : Transmitter) : String :=
  if tx.label = "" then "tx_" ++ toString idx else tx.label

/-- Python's `enumerate`. -/
def withIndexFrom (n : ℕ) : List α → List (ℕ × α)
  | [] => []
  | a :: l => (n, a) :: withIndexFrom (n + 1) l

/-- Python's `enumerate` starting at 0. -/
def withIndex (l : List α) : List (ℕ × α) := withIndexFrom 0 l

/-- Python `dict` insertion: overwrite in place if the key exists, else append. -/
def dictInsert (d : List (String × α)) (k : String) (v : α) : List (String × α) :=
  match d with
  | [] => [(k, v)]
  | (k1, v1) :: rest => if k1 = k then (k, v) :: rest else (k1, v1) :: dictInsert rest k v

/-- `np.maximum.reduce` over a stack of per-cell values, with a default for the
empty stack. -/
noncomputable def maxRed (l : List ℝ) (dfl : ℝ) : ℝ :=
  match l with
  | [] => dfl
  | x :: xs => xs.foldl max x

/-- `np.min` over a list of per-cell values, with a default for the empty list. -/
noncomputable def minRed (l : List ℝ) (dfl : ℝ) : ℝ :=
  match l with
  | [] => dfl
  | x :: xs => xs.foldl min x

/-- `simulation.SimulationResult`, grids modelled pointwise. -/
structure SimulationResult where
  rssi : List (String × ((ℚ × ℚ) → ℝ))
  interference : (ℚ × ℚ) → ℝ
  snr : List (String × ((ℚ × ℚ) → ℝ))
  best_rssi : (ℚ × ℚ) → ℝ
  best_snr : (ℚ × ℚ) → ℝ

/-- `Simulation.run`: per-transmitter RSSI grids keyed by label (collisions
silently overwrite), best-RSSI as max-reduce of the stack of all transmitter
grids (noise floor if empty), interference summed in linear mW plus the thermal
floor then converted back to dB, per-label SNR from the dict entries, and
best-SNR as max-reduce of the per-label SNR grids (zero if empty). -/
noncomputable def Simulation.run (sim : Simulation) (rng : RandomState) : SimulationResult :=
  let en := withIndex sim.env.transmitters
  let rssiDict := en.foldl
    (fun d p => dictInsert d (labelOf p.1 p.2) (sim.rssiCell rng p.1 p.2)) []
  let stack := en.map (fun p => sim.rssiCell rng p.1 p.2)
  let best_rssi := fun c => maxRed (stack.map (fun g => g c)) (sim.noise_floor_dbm : ℝ)
  let interference := fun c =>
    10 * Real.logb 10
      ((sim.env.noise_sources.map (fun ns =>
          (10 : ℝ) ^ (((ns.power_dbm : ℝ) -
            (sim.path_loss (sim.env.distance ns.x ns.y c) ns.frequency_mhz +
              (sim.env.obstacle_attenuation ns.x ns.y c.1 c.2 : ℝ))) / 10))).sum +
        (10 : ℝ) ^ ((sim.noise_floor_dbm : ℝ) / 10))
  let snrDict := rssiDict.map
    (fun p => (p.1, fun c => p.2 c - (interference c + (sim.noise_figure_db : ℝ))))
  let best_snr := fun c => maxRed (snrDict.map (fun p => p.2 c)) 0
  ⟨rssiDict, interference, snrDict, best_rssi, best_snr⟩

/-- Python's `round(x, 2)`, idealized over `ℝ` (the half-even tie rule is
immaterial at the values considered here). -/
noncomputable def round2 (x : ℝ) : ℝ := ((round (100 * x) : ℤ) : ℝ) / 100

/-- The record returned by `Simulation.coverage_stats`. -/
structure CoverageStats where
  total_points : ℕ
  covered_points : ℕ
  coverage_pct : ℝ
  mean_rssi_dbm : ℝ
  mean_snr_db : ℝ

open Classical in
/-- `Simulation.coverage_stats`: cells with best-RSSI ≥ sensitivity as a
percentage of all cells, plus grid means of best-RSSI and best-SNR. -/
noncomputable def Simulation.coverage_stats (sim : Simulation)
    (result : SimulationResult) (sensitivity_dbm : ℚ) : CoverageStats :=
  let cs := sim.env.cells
  let total := cs.length
  let covered :=
    (cs.filter (fun c => decide ((sensitivity_dbm : ℝ) ≤ result.best_rssi c))).length
  ⟨total, covered,
    if total ≠ 0 then round2 (100 * (covered : ℝ) / (total : ℝ)) else 0,
    round2 ((cs.map result.best_rssi).sum / (total : ℝ)),
    round2 ((cs.map result.best_snr).sum / (total : ℝ))⟩

/-! ## Placement scoring (analysis/placement.py) -/

/-- `placement.coverage_score`, with the in-place mutation of the Environment
made explicit: the returned pair is (score, the Environment as it stands after
the call). The gateway and transmitter lists are saved, replaced by the
candidate gateways and candidate virtual transmitters for the trial simulation,
and restored before returning. -/
noncomputable def coverage_score (env : Environment) (gateways : List Gateway)
    (pathloss_model : String) (pathloss_exponent noise_floor_dbm sensitivity_dbm : ℚ)
    (w_coverage w_mean_snr w_min_snr : ℚ) : ℝ × Environment :=
  let saved_gw := env.gateways
  let env1 : Environment := { env with gateways := gateways }
  let virtual_txs := gateways.map (fun gw =>
    Transmitter.mk gw.x gw.y gw.protocol gw.protocol.max_tx_power_dbm "" gw.antenna_gain_dbi)
  let saved_tx := env1.transmitters
  let env2 : Environment := { env1 with transmitters := virtual_txs }
  let sim : Simulation :=
    ⟨env2, pathloss_model, pathloss_exponent, noise_floor_dbm, 0, false, 6⟩
  let res := sim.run zeroRng
  let stats := sim.coverage_stats res sensitivity_dbm
  let min_snr := minRed (sim.env.cells.map res.best_snr) 0
  let score := (w_coverage : ℝ) * stats.coverage_pct +
    (w_mean_snr : ℝ) * stats.mean_snr_db + (w_min_snr : ℝ) * min_snr
  let env3 : Environment := { env2 with gateways := saved_gw, transmitters := saved_tx }
  (score, env3)

/-! ## Helper lemmas -/

lemma attenuation_foldl (x1 y1 x2 y2 : ℚ) :
    ∀ (l : List Obstacle) (a : ℚ),
      l.foldl
        (fun total obs =>
          if segments_intersect (x1, y1) (x2, y2) obs.start_point obs.end_point then
            total + obs.attenuation_db
          else total) a =
      a + ((l.filter (fun o =>
        decide (segments_intersect (x1, y1) (x2, y2) o.start_point o.end_point))).map
          Obstacle.attenuation_db).sum
  | [], a => by simp
  | o :: l, a => by
    rw [List.foldl_cons]
    by_cases h : segments_intersect (x1, y1) (x2, y2) o.start_point o.end_point
    · rw [if_pos h, attenuation_foldl x1 y1 x2 y2 l,
        List.filter_cons_of_pos (by simpa using h), List.map_cons, List.sum_cons]
      ring
    · rw [if_neg h, attenuation_foldl x1 y1 x2 y2 l,
        List.filter_cons_of_neg (by simpa using h)]

lemma attenuationOverList_eq_sum (obstacles : List Obstacle) (x1 y1 x2 y2 : ℚ) :
    attenuationOverList obstacles x1 y1 x2 y2 =
      ((obstacles.filter (fun o =>
        decide (segments_intersect (x1, y1) (x2, y2) o.start_point o.end_point))).map
          Obstacle.attenuation_db).sum := by
  unfold attenuationOverList
  rw [attenuation_foldl, zero_add]

lemma lookup_eq_none_iff : ∀ (l : List (String × ℚ)) (k : String),
    List.lookup k l = none ↔ k ∉ l.map Prod.fst
  | [], k => by simp
  | (k1, v1) :: l, k => by
    by_cases h : k = k1
    · subst h
      simp [List.lookup]
    · have hbeq : (k == k1) = false := beq_eq_false_iff_ne.mpr h
      simp [List.lookup, hbeq, h, lookup_eq_none_iff l k]

/-! ## C3: obstacle attenuation is an exact, order-independent, uncapped sum -/

/-- C3: `Environment.obstacle_attenuation(x1, y1, x2, y2)` equals the sum of
`attenuation_db` over exactly the obstacles whose segment intersects the
segment `(x1,y1)-(x2,y2)`; it is independent of the order of the obstacle list;
a line crossing no obstacle yields exactly 0 dB; and crossing two obstacles of
3 dB and 10 dB yields exactly 13 dB in either order (never capped). -/
theorem obstacle_attenuation_additive :
    ∀ (env : Environment) (x1 y1 x2 y2 : ℚ),
      env.obstacle_attenuation x1 y1 x2 y2 =
        ((env.obstacles.filter (fun o =>
          decide (segments_intersect (x1, y1) (x2, y2) o.start_point o.end_point))).map
            Obstacle.attenuation_db).sum
      ∧ (∀ env2 : Environment, env.obstacles.Perm env2.obstacles →
          env.obstacle_attenuation x1 y1 x2 y2 = env2.obstacle_attenuation x1 y1 x2 y2)
      ∧ ((∀ o ∈ env.obstacles,
            ¬ segments_intersect (x1, y1) (x2, y2) o.start_point o.end_point) →
          env.obstacle_attenuation x1 y1 x2 y2 = 0)
      ∧ (∀ o1 o2 : Obstacle,
          segments_intersect (x1, y1) (x2, y2) o1.start_point o1.end_point →
          segments_intersect (x1, y1) (x2, y2) o2.start_point o2.end_point →
          o1.attenuation_db = 3 → o2.attenuation_db = 10 →
          attenuationOverList [o1, o2] x1 y1 x2 y2 = 13 ∧
          attenuationOverList [o2, o1] x1 y1 x2 y2 = 13) := by
  intro env x1 y1 x2 y2
  refine ⟨?_, ?_, ?_, ?_⟩
  · exact attenuationOverList_eq_sum env.obstacles x1 y1 x2 y2
  · intro env2 hperm
    unfold Environment.obstacle_attenuation
    rw [attenuationOverList_eq_sum, attenuationOverList_eq_sum]
    exact ((hperm.filter _).map _).sum_eq
  · intro hnone
    unfold Environment.obstacle_attenuation
    rw [attenuationOverList_eq_sum]
    have hfil : env.obstacles.filter (fun o =>
        decide (segments_intersect (x1, y1) (x2, y2) o.start_point o.end_point)) = [] := by
      rw [List.filter_eq_nil_iff]
      intro o ho
      simpa using hnone o ho
    rw [hfil]
    simp
  · intro o1 o2 h1 h2 ha1 ha2
    have e1 : decide (segments_intersect (x1, y1) (x2, y2) o1.start_point o1.end_point)
        = true := by simpa using h1
    have e2 : decide (segments_intersect (x1, y1) (x2, y2) o2.start_point o2.end_point)
        = true := by simpa using h2
    refine ⟨?_, ?_⟩ <;>
      · rw [attenuationOverList_eq_sum]
        simp [List.filter_cons, e1, e2, ha1, ha2]
        norm_num

/-- An arbitrary concrete environment used to instantiate claim theorems. -/
def envEmpty : Environment := ⟨2, 2, 1, [], [], [], []⟩

/-- Witness for C3 at a concrete line and two concrete crossing obstacles. -/
theorem obstacle_attenuation_additive_witness :
    attenuationOverList
      [⟨(1, -1), (1, 1), 3, "drywall"⟩, ⟨(2, -1), (2, 1), 10, "brick"⟩] 0 0 10 0 = 13 ∧
    attenuationOverList
      [⟨(2, -1), (2, 1), 10, "brick"⟩, ⟨(1, -1), (1, 1), 3, "drywall"⟩] 0 0 10 0 = 13 :=
  (obstacle_attenuation_additive envEmpty 0 0 10 0).2.2.2
    ⟨(1, -1), (1, 1), 3, "drywall"⟩ ⟨(2, -1), (2, 1), 10, "brick"⟩
    (by norm_num [segments_intersect, cross2, on_segment])
    (by norm_num [segments_intersect, cross2, on_segment]) rfl rfl

/-! ## C6: overlap factor of identical and of disjoint channels -/

/-- C6 (amended): for positive bandwidth, a channel fully overlaps itself,
`overlap_factor(f, bw, f, bw) = 1`; and any two channels whose center
separation exceeds the sum of their half-bandwidths have overlap factor 0. -/
theorem overlap_factor_self_and_disjoint :
    (∀ f bw : ℚ, 0 < bw → overlap_factor f bw f bw = 1) ∧
    (∀ f1 bw1 f2 bw2 : ℚ, bw1 / 2000 + bw2 / 2000 < |f1 - f2| →
      overlap_factor f1 bw1 f2 bw2 = 0) := by
  constructor
  · intro f bw hbw
    have hw : 0 < bw / 1000 := by positivity
    simp only [overlap_factor, min_self, max_self]
    rw [if_pos hw]
    have h1 : f + bw / 2000 - (f - bw / 2000) = bw / 1000 := by ring
    rw [h1, max_eq_right hw.le, div_self hw.ne']
  · intro f1 bw1 f2 bw2 hsep
    have hover : min (f1 + bw1 / 2000) (f2 + bw2 / 2000) -
        max (f1 - bw1 / 2000) (f2 - bw2 / 2000) ≤ 0 := by
      rcases abs_cases (f1 - f2) with ⟨habs, _⟩ | ⟨habs, _⟩
      · have h1 : min (f1 + bw1 / 2000) (f2 + bw2 / 2000) ≤ f2 + bw2 / 2000 :=
          min_le_right _ _
        have h2 : f1 - bw1 / 2000 ≤ max (f1 - bw1 / 2000) (f2 - bw2 / 2000) :=
          le_max_left _ _
        rw [habs] at hsep
        linarith
      · have h1 : min (f1 + bw1 / 2000) (f2 + bw2 / 2000) ≤ f1 + bw1 / 2000 :=
          min_le_left _ _
        have h2 : f2 - bw2 / 2000 ≤ max (f1 - bw1 / 2000) (f2 - bw2 / 2000) :=
          le_max_right _ _
        rw [habs] at hsep
        linarith
    simp only [overlap_factor, max_eq_left hover]
    split <;> simp

/-- Counterexample for C6 as stated: at bandwidth 0 the overlap factor of a
channel with itself is 0, not 1. -/
theorem overlap_factor_self_counterexample :
    overlap_factor 868 0 868 0 = 0 ∧ ¬ overlap_factor 868 0 868 0 = 1 := by
  have h : overlap_factor 868 0 868 0 = 0 := by
    norm_num [overlap_factor]
  exact ⟨h, by rw [h]; norm_num⟩

/-- Witness for C6 at a concrete positive bandwidth and a concrete pair of
disjoint channels. -/
theorem overlap_factor_self_and_disjoint_witness :
    overlap_factor 868 125 868 125 = 1 ∧ overlap_factor 868 125 920 125 = 0 :=
  ⟨overlap_factor_self_and_disjoint.1 868 125 (by norm_num),
   overlap_factor_self_and_disjoint.2 868 125 920 125 (by norm_num)⟩

/-! ## C9: `Obstacle.from_material` preset resolution -/

/-- C9: `Obstacle.from_material` fails (raises `ValueError`, modelled as
`none`) if and only if the lowercased material is not one of the preset keys of
`MATERIAL_ATTENUATION`; on success the obstacle's `attenuation_db` is the
preset value for that material and its `material` field is the lowercased
input. -/
theorem from_material_spec :
    ∀ (sp ep : ℚ × ℚ) (m : String),
      (Obstacle.from_material sp ep m = none ↔
        lowerStr m ∉ MATERIAL_ATTENUATION.map Prod.fst) ∧
      (∀ o, Obstacle.from_material sp ep m = some o →
        MATERIAL_ATTENUATION.lookup (lowerStr m) = some o.attenuation_db ∧
        o.material = lowerStr m ∧ o.start_point = sp ∧ o.end_point = ep) := by
  intro sp ep m
  rcases hl : MATERIAL_ATTENUATION.lookup (lowerStr m) with _ | att
  · have hnone : Obstacle.from_material sp ep m = none := by
      unfold Obstacle.from_material
      rw [hl]
    refine ⟨?_, ?_⟩
    · rw [hnone]
      exact ⟨fun _ => (lookup_eq_none_iff _ _).mp hl, fun _ => rfl⟩
    · intro o ho
      rw [hnone] at ho
      exact absurd ho (by simp)
  · have hsome : Obstacle.from_material sp ep m = some ⟨sp, ep, att, lowerStr m⟩ := by
      unfold Obstacle.from_material
      rw [hl]
    refine ⟨?_, ?_⟩
    · rw [hsome]
      constructor
      · intro h
        exact absurd h (by simp)
      · intro hmem
        have hn : MATERIAL_ATTENUATION.lookup (lowerStr m) = none :=
          (lookup_eq_none_iff _ _).mpr hmem
        rw [hl] at hn
        exact absurd hn (by simp)
    · intro o ho
      rw [hsome] at ho
      injection ho with ho
      subst ho
      exact ⟨rfl, rfl, rfl, rfl⟩

/-- Witness for C9 applying the success branch to the material `"Brick"`. -/
theorem from_material_spec_witness :
    MATERIAL_ATTENUATION.lookup (lowerStr "Brick") = some 10 ∧
    ("brick" : String) = lowerStr "Brick" ∧
    ((0, 0) : ℚ × ℚ) = (0, 0) ∧ ((1, 1) : ℚ × ℚ) = (1, 1) :=
  (from_material_spec (0, 0) (1, 1) "Brick").2 ⟨(0, 0), (1, 1), 10, "brick"⟩ (by decide)

lemma rayHitVEdge_iff (tx_x tx_y dx dy e ry rh : ℚ) :
    rayHitVEdge tx_x tx_y dx dy e ry rh ↔
      (1/1000000 < |dx| ∧ 1/100 < (e - tx_x) / dx ∧ (e - tx_x) / dx < 99/100 ∧
        ry ≤ tx_y + (e - tx_x) / dx * dy ∧ tx_y + (e - tx_x) / dx * dy ≤ ry + rh) := by
  unfold rayHitVEdge
  by_cases h : 1/1000000 < |dx|
  · rw [if_pos h]
    exact ⟨fun hc => ⟨h, hc⟩, fun hc => hc.2⟩
  · rw [if_neg h]
    constructor
    · intro hc
      exact absurd hc.1 (by norm_num)
    · intro hc
      exact absurd hc.1 h

lemma rayHitHEdge_iff (tx_x tx_y dx dy e rx rw : ℚ) :
    rayHitHEdge tx_x tx_y dx dy e rx rw ↔
      (1/1000000 < |dy| ∧ 1/100 < (e - tx_y) / dy ∧ (e - tx_y) / dy < 99/100 ∧
        rx ≤ tx_x + (e - tx_y) / dy * dx ∧ tx_x + (e - tx_y) / dy * dx ≤ rx + rw) := by
  unfold rayHitHEdge
  by_cases h : 1/1000000 < |dy|
  · rw [if_pos h]
    exact ⟨fun hc => ⟨h, hc⟩, fun hc => hc.2⟩
  · rw [if_neg h]
    constructor
    · intro hc
      exact absurd hc.1 (by norm_num)
    · intro hc
      exact absurd hc.1 h

lemma rayHitsRect_iff_masked (tx_x tx_y cx cy rx ry rw rh : ℚ) :
    rayHitsRect tx_x tx_y cx cy rx ry rw rh ↔
      maskedCrossing tx_x tx_y cx cy rx ry rw rh := by
  unfold rayHitsRect maskedCrossing
  rw [rayHitVEdge_iff, rayHitVEdge_iff, rayHitHEdge_iff, rayHitHEdge_iff]

/-! ## C7: per-rectangle shadowing contribution in the vectorized path -/

/-- C7 (amended): a destination cell inside the rectangle (inclusive bounds)
receives exactly double the rectangle's attenuation and is never additionally
charged for an edge crossing; a cell outside the rectangle is charged the
single attenuation exactly when the ray from the source crosses one of the
four edges with parameter `t ∈ (0.01, 0.99)` and the intersection point within
the edge's span, where crossings of vertical edges are only detected when
`|Δx| > 1e-6` and of horizontal edges when `|Δy| > 1e-6`. -/
theorem shadow_contribution_spec :
    ∀ tx_x tx_y cx cy rx ry rw rh att : ℚ,
      (insideRect cx cy rx ry rw rh →
        rectContribution tx_x tx_y cx cy rx ry rw rh att = 2 * att) ∧
      (¬ insideRect cx cy rx ry rw rh →
        (maskedCrossing tx_x tx_y cx cy rx ry rw rh →
          rectContribution tx_x tx_y cx cy rx ry rw rh att = att) ∧
        (¬ maskedCrossing tx_x tx_y cx cy rx ry rw rh →
          rectContribution tx_x tx_y cx cy rx ry rw rh att = 0)) := by
  intro tx_x tx_y cx cy rx ry rw rh att
  refine ⟨fun hin => ?_, fun hout => ⟨fun hm => ?_, fun hm => ?_⟩⟩
  · unfold rectContribution
    rw [if_pos hin]
  · unfold rectContribution
    rw [if_neg hout, if_pos ((rayHitsRect_iff_masked tx_x tx_y cx cy rx ry rw rh).mpr hm)]
  · unfold rectContribution
    rw [if_neg hout,
      if_neg (fun hh => hm ((rayHitsRect_iff_masked tx_x tx_y cx cy rx ry rw rh).mp hh))]

/-- Counterexample for C7 as stated: with the source at the origin and a
micrometre-thin rectangle between source and cell, the ray genuinely crosses
the rectangle's vertical edges with `t = 1/2` (and `t = 3/5`) in `(0.01, 0.99)`
and within their span, the cell is outside the rectangle, yet the code charges
no attenuation because `|Δx| = 1e-7` fails the `> 1e-6` degeneracy mask. -/
theorem shadow_contribution_counterexample :
    specCrossing 0 0 (1/10000000) 0 (1/20000000) (-1) (1/100000000) 2 ∧
    ¬ insideRect (1/10000000) 0 (1/20000000) (-1) (1/100000000) 2 ∧
    rectContribution 0 0 (1/10000000) 0 (1/20000000) (-1) (1/100000000) 2 10 = 0 := by
  refine ⟨?_, ?_, ?_⟩
  · unfold specCrossing
    norm_num
  · unfold insideRect
    norm_num
  · have h7 : |((1:ℚ)/10000000 - 0)| = 1/10000000 := by
      rw [sub_zero]
      exact abs_of_pos (by norm_num)
    have h0 : |((0:ℚ) - 0)| = 0 := by simp
    have hmask : ¬ maskedCrossing 0 0 (1/10000000) 0 (1/20000000) (-1) (1/100000000) 2 := by
      unfold maskedCrossing
      simp only [h7, h0]
      norm_num
    unfold rectContribution
    rw [if_neg (by unfold insideRect; norm_num),
      if_neg (fun hh => hmask
        ((rayHitsRect_iff_masked 0 0 (1/10000000) 0 (1/20000000) (-1) (1/100000000) 2).mp hh))]

/-- Witness for C7: a cell inside a concrete rectangle gets double attenuation;
a cell behind it on the far side gets the single attenuation. -/
theorem shadow_contribution_spec_witness :
    rectContribution 0 0 5 0 4 (-1) 2 2 7 = 2 * 7 ∧
    rectContribution 0 0 10 0 4 (-1) 2 2 5 = 5 :=
  ⟨(shadow_contribution_spec 0 0 5 0 4 (-1) 2 2 7).1 (by unfold insideRect; norm_num),
   ((shadow_contribution_spec 0 0 10 0 4 (-1) 2 2 5).2 (by unfold insideRect; norm_num)).1
     (by unfold maskedCrossing; norm_num)⟩

/-! ## C5: strict monotonicity of free-space path loss in distance -/

/-- C5 (amended): for a fixed frequency `f > 0`, the free-space path loss is
strictly increasing in distance for distances of at least 1 mm (the `1e-6` km
clamp): `d2 > d1 ≥ 1/1000` m implies `FSPL(d2, f) > FSPL(d1, f)`. -/
theorem free_space_path_loss_strictMono :
    ∀ d1 d2 f : ℝ, 1/1000 ≤ d1 → d1 < d2 → 0 < f →
      free_space_path_loss d1 f < free_space_path_loss d2 f := by
  intro d1 d2 f h1 h12 _
  unfold free_space_path_loss
  have hc1 : max (d1 / 1000) (1/1000000) = d1 / 1000 := by
    rw [max_eq_left]
    linarith
  have hc2 : max (d2 / 1000) (1/1000000) = d2 / 1000 := by
    rw [max_eq_left]
    linarith
  rw [hc1, hc2]
  have hlog : Real.logb 10 (d1 / 1000) < Real.logb 10 (d2 / 1000) :=
    Real.logb_lt_logb (by norm_num) (by linarith) (by linarith)
  linarith

/-- Counterexample for C5 as stated: both 0.1 mm and 0.5 mm fall below the
`1e-6` km clamp, so their free-space path losses are equal and the strict
inequality `FSPL(d2) > FSPL(d1)` fails even though `d2 > d1 > 0`. -/
theorem free_space_path_loss_counterexample :
    (0 : ℝ) < 1/10000 ∧ (1/10000 : ℝ) < 1/2000 ∧
    ¬ free_space_path_loss (1/10000) 868 < free_space_path_loss (1/2000) 868 := by
  refine ⟨by norm_num, by norm_num, ?_⟩
  have heq : free_space_path_loss (1/10000) 868 = free_space_path_loss (1/2000) 868 := by
    unfold free_space_path_loss
    rw [max_eq_right (by norm_num), max_eq_right (by norm_num)]
  rw [heq]
  exact lt_irrefl _

/-- Witness for C5 at 1 m and 2 m. -/
theorem free_space_path_loss_strictMono_witness :
    (1/1000 : ℝ) ≤ 1 ∧ (1 : ℝ) < 2 ∧ (0 : ℝ) < 868 ∧
    free_space_path_loss 1 868 < free_space_path_loss 2 868 :=
  ⟨by norm_num, by norm_num, by norm_num,
   free_space_path_loss_strictMono 1 2 868 (by norm_num) (by norm_num) (by norm_num)⟩

/-! ## Projection lemmas for `Simulation.run` and `Simulation.coverage_stats` -/

lemma run_rssi (sim : Simulation) (rng : RandomState) :
    (sim.run rng).rssi =
      (withIndex sim.env.transmitters).foldl
        (fun d p => dictInsert d (labelOf p.1 p.2) (sim.rssiCell rng p.1 p.2)) [] := rfl

lemma run_best_rssi (sim : Simulation) (rng : RandomState) :
    (sim.run rng).best_rssi = fun c =>
      maxRed (((withIndex sim.env.transmitters).map
        (fun p => sim.rssiCell rng p.1 p.2)).map (fun g => g c))
        (sim.noise_floor_dbm : ℝ) := rfl

lemma run_interference (sim : Simulation) (rng : RandomState) :
    (sim.run rng).interference = fun c =>
      10 * Real.logb 10
        ((sim.env.noise_sources.map (fun ns =>
            (10 : ℝ) ^ (((ns.power_dbm : ℝ) -
              (sim.path_loss (sim.env.distance ns.x ns.y c) ns.frequency_mhz +
                (sim.env.obstacle_attenuation ns.x ns.y c.1 c.2 : ℝ))) / 10))).sum +
          (10 : ℝ) ^ ((sim.noise_floor_dbm : ℝ) / 10)) := rfl

lemma run_snr (sim : Simulation) (rng : RandomState) :
    (sim.run rng).snr = (sim.run rng).rssi.map
      (fun p => (p.1, fun c => p.2 c -
        ((sim.run rng).interference c + (sim.noise_figure_db : ℝ)))) := rfl

lemma run_best_snr (sim : Simulation) (rng : RandomState) :
    (sim.run rng).best_snr = fun c =>
      maxRed ((sim.run rng).snr.map (fun p => p.2 c)) 0 := rfl

open Classical in
lemma stats_covered (sim : Simulation) (result : SimulationResult) (sens : ℚ) :
    (sim.coverage_stats result sens).covered_points =
      (sim.env.cells.filter
        (fun c => decide ((sens : ℝ) ≤ result.best_rssi c))).length := rfl

lemma stats_total (sim : Simulation) (result : SimulationResult) (sens : ℚ) :
    (sim.coverage_stats result sens).total_points = sim.env.cells.length := rfl

lemma stats_pct (sim : Simulation) (result : SimulationResult) (sens : ℚ) :
    (sim.coverage_stats result sens).coverage_pct =
      if sim.env.cells.length ≠ 0 then
        round2 (100 * ((sim.coverage_stats result sens).covered_points : ℝ) /
          (sim.env.cells.length : ℝ))
      else 0 := rfl

lemma stats_mean_snr (sim : Simulation) (result : SimulationResult) (sens : ℚ) :
    (sim.coverage_stats result sens).mean_snr_db =
      round2 ((sim.env.cells.map result.best_snr).sum / (sim.env.cells.length : ℝ)) := rfl

lemma round2_ofNat (n : ℕ) : round2 ((n : ℝ)) = (n : ℝ) := by
  unfold round2
  have h : (100 : ℝ) * (n : ℝ) = (((100 * n : ℕ) : ℤ) : ℝ) := by push_cast; ring
  rw [h, round_intCast]
  push_cast
  ring

/-! ## C8: `coverage_score` restores the Environment -/

/-- C8: after `coverage_score` returns, the Environment equals its value at
entry: the candidate gateways and virtual transmitters installed for the trial
are fully removed, and the obstacle and noise-source lists are untouched. -/
theorem coverage_score_restores :
    ∀ (env : Environment) (gws : List Gateway) (pm : String) (pe nf sens wc wm wmin : ℚ),
      (coverage_score env gws pm pe nf sens wc wm wmin).2 = env ∧
      (coverage_score env gws pm pe nf sens wc wm wmin).2.gateways = env.gateways ∧
      (coverage_score env gws pm pe nf sens wc wm wmin).2.transmitters = env.transmitters ∧
      (coverage_score env gws pm pe nf sens wc wm wmin).2.obstacles = env.obstacles ∧
      (coverage_score env gws pm pe nf sens wc wm wmin).2.noise_sources = env.noise_sources :=
  fun _ _ _ _ _ _ _ _ _ => ⟨rfl, rfl, rfl, rfl, rfl⟩

/-! ## C10: determinism of `run` with fading disabled -/

lemma rssiCell_no_fading (sim : Simulation) (rng1 rng2 : RandomState)
    (h1 : sim.shadow_fading_std = 0) (h2 : sim.multipath_fading = false) :
    sim.rssiCell rng1 = sim.rssiCell rng2 := by
  funext idx tx c
  unfold Simulation.rssiCell
  rw [h1, h2]
  simp

/-- C10: with `shadow_fading_std = 0` and `multipath_fading = False`,
`Simulation.run` is deterministic: its entire result (per-label RSSI and SNR
grids, interference, best-RSSI and best-SNR) is independent of the random
state. -/
theorem run_deterministic_without_fading :
    ∀ (sim : Simulation) (rng1 rng2 : RandomState),
      sim.shadow_fading_std = 0 → sim.multipath_fading = false →
      sim.run rng1 = sim.run rng2 := by
  intro sim rng1 rng2 h1 h2
  unfold Simulation.run
  rw [rssiCell_no_fading sim rng1 rng2 h1 h2]

/-- A second arbitrary fixed random state (all draws one). -/
noncomputable def oneRng : RandomState := ⟨fun _ _ => 1, fun _ _ => 1, fun _ _ => 1⟩

/-- A concrete fading-free simulation over the empty environment. -/
noncomputable def simDet : Simulation := ⟨envEmpty, "log-distance", 27/10, -120, 0, false, 6⟩

/-- Witness for C10: two different random states give the same result. -/
theorem run_deterministic_without_fading_witness :
    simDet.run zeroRng = simDet.run oneRng :=
  run_deterministic_without_fading simDet zeroRng oneRng rfl rfl

/-! ## C4: interference is summed in linear power, logged at the end -/

/-- C4: at every cell the interference grid equals `10·log10` of the sum over
all noise sources of `10^((power − path loss − obstacle attenuation)/10)` plus
`10^(noise_floor/10)`; in particular, with zero noise sources the interference
equals the noise floor everywhere. -/
theorem interference_linear_sum :
    ∀ (sim : Simulation) (rng : RandomState) (c : ℚ × ℚ),
      (sim.run rng).interference c =
        10 * Real.logb 10
          ((sim.env.noise_sources.map (fun ns =>
              (10 : ℝ) ^ (((ns.power_dbm : ℝ) -
                (sim.path_loss (sim.env.distance ns.x ns.y c) ns.frequency_mhz +
                  (sim.env.obstacle_attenuation ns.x ns.y c.1 c.2 : ℝ))) / 10))).sum +
            (10 : ℝ) ^ ((sim.noise_floor_dbm : ℝ) / 10)) ∧
      (sim.env.noise_sources = [] →
        (sim.run rng).interference c = (sim.noise_floor_dbm : ℝ)) := by
  intro sim rng c
  refine ⟨congrFun (run_interference sim rng) c, fun h => ?_⟩
  rw [congrFun (run_interference sim rng) c, h]
  simp only [List.map_nil, List.sum_nil, zero_add]
  rw [Real.logb_rpow (by norm_num) (by norm_num)]
  ring

/-- Witness for C4: over the empty environment the interference at the origin
is the −120 dBm noise floor. -/
theorem interference_linear_sum_witness :
    (simDet.run zeroRng).interference (0, 0) = ((-120 : ℚ) : ℝ) :=
  (interference_linear_sum simDet zeroRng (0, 0)).2 rfl

/-! ## C1: defaults with zero transmitters -/

lemma run_empty_best_rssi (sim : Simulation) (rng : RandomState)
    (h : sim.env.transmitters = []) :
    (sim.run rng).best_rssi = fun _ => (sim.noise_floor_dbm : ℝ) := by
  rw [run_best_rssi, h]
  rfl

lemma run_empty_best_snr (sim : Simulation) (rng : RandomState)
    (h : sim.env.transmitters = []) :
    (sim.run rng).best_snr = fun _ => (0 : ℝ) := by
  rw [run_best_snr, run_snr, run_rssi, h]
  rfl

lemma covered_eq_total_of_no_tx (sim : Simulation) (rng : RandomState)
    (htx : sim.env.transmitters = []) (hnf : sim.noise_floor_dbm = -120) :
    (sim.coverage_stats (sim.run rng) (-137)).covered_points = sim.env.cells.length := by
  rw [stats_covered]
  have hb := run_empty_best_rssi sim rng htx
  have hfil : sim.env.cells.filter
      (fun c => decide (((-137 : ℚ) : ℝ) ≤ (sim.run rng).best_rssi c)) = sim.env.cells := by
    apply List.filter_eq_self.mpr
    intro c hc
    simp only [hb, hnf, decide_eq_true_eq]
    push_cast
    norm_num
  rw [hfil]

lemma pct_of_no_tx (sim : Simulation) (rng : RandomState)
    (htx : sim.env.transmitters = []) (hnf : sim.noise_floor_dbm = -120)
    (htot : sim.env.cells.length ≠ 0) :
    (sim.coverage_stats (sim.run rng) (-137)).coverage_pct = 100 := by
  rw [stats_pct, if_pos htot, covered_eq_total_of_no_tx sim rng htx hnf]
  have hne : ((sim.env.cells.length : ℝ)) ≠ 0 := Nat.cast_ne_zero.mpr htot
  rw [mul_div_assoc, div_self hne, mul_one]
  have h100 := round2_ofNat 100
  push_cast at h100
  exact h100

lemma mean_snr_of_no_tx (sim : Simulation) (rng : RandomState)
    (htx : sim.env.transmitters = []) :
    (sim.coverage_stats (sim.run rng) (-137)).mean_snr_db = 0 := by
  rw [stats_mean_snr]
  have hb := run_empty_best_snr sim rng htx
  have hsum : (sim.env.cells.map (sim.run rng).best_snr).sum = 0 := by
    apply List.sum_eq_zero
    intro x hx
    obtain ⟨c, hc, rfl⟩ := List.mem_map.mp hx
    rw [hb]
  rw [hsum, zero_div]
  unfold round2
  rw [mul_zero, round_zero]
  simp

/-- C1 (amended): with zero transmitters, `Simulation.run` returns best-RSSI
equal to the −120 dBm noise floor and best-SNR equal to zero at every cell;
`coverage_stats` at the default −137 dBm sensitivity then reports
`coverage_pct = 100` on any non-empty grid (every cell counts as covered,
because the noise-floor default −120 dBm exceeds the −137 dBm sensitivity) and
`mean_snr_db = 0`. -/
theorem no_transmitter_defaults :
    ∀ (sim : Simulation) (rng : RandomState),
      sim.env.transmitters = [] → sim.noise_floor_dbm = -120 →
      (∀ c, (sim.run rng).best_rssi c = ((-120 : ℚ) : ℝ)) ∧
      (∀ c, (sim.run rng).best_snr c = 0) ∧
      (sim.env.cells.length ≠ 0 →
        (sim.coverage_stats (sim.run rng) (-137)).coverage_pct = 100 ∧
        (sim.coverage_stats (sim.run rng) (-137)).mean_snr_db = 0) := by
  intro sim rng htx hnf
  refine ⟨fun c => ?_, fun c => ?_,
    fun htot => ⟨pct_of_no_tx sim rng htx hnf htot, mean_snr_of_no_tx sim rng htx⟩⟩
  · simp only [run_empty_best_rssi sim rng htx, hnf]
  · simp only [run_empty_best_snr sim rng htx]

lemma envEmpty_cells : envEmpty.cells = [(0, 0), (1, 0), (0, 1), (1, 1)] := by
  norm_num [envEmpty, Environment.cells, Environment.xs, Environment.ys, arangeQ,
    List.range_succ, List.flatMap]

/-- Counterexample for C1 as stated: on a 2×2 grid with zero transmitters and
all defaults, `coverage_pct` is 100.0, not 0.0 — every cell's best-RSSI is the
−120 dBm noise floor, which exceeds the −137 dBm sensitivity. -/
theorem coverage_pct_zero_tx_counterexample :
    envEmpty.transmitters = [] ∧
    (simDet.coverage_stats (simDet.run zeroRng) (-137)).coverage_pct = 100 ∧
    (simDet.coverage_stats (simDet.run zeroRng) (-137)).coverage_pct ≠ 0 := by
  have hlen : simDet.env.cells.length ≠ 0 := by
    rw [show simDet.env.cells = [(0, 0), (1, 0), (0, 1), (1, 1)] from envEmpty_cells]
    norm_num
  have hpct := pct_of_no_tx simDet zeroRng rfl rfl hlen
  refine ⟨rfl, hpct, ?_⟩
  rw [hpct]
  norm_num

/-- Witness for C1 on the concrete 2×2 empty environment. -/
theorem no_transmitter_defaults_witness :
    (simDet.run zeroRng).best_rssi (0, 0) = ((-120 : ℚ) : ℝ) ∧
    (simDet.run zeroRng).best_snr (0, 0) = 0 ∧
    (simDet.coverage_stats (simDet.run zeroRng) (-137)).coverage_pct = 100 ∧
    (simDet.coverage_stats (simDet.run zeroRng) (-137)).mean_snr_db = 0 := by
  obtain ⟨h1, h2, h3⟩ := no_transmitter_defaults simDet zeroRng rfl rfl
  have hlen : simDet.env.cells.length ≠ 0 := by
    rw [show simDet.env.cells = [(0, 0), (1, 0), (0, 1), (1, 1)] from envEmpty_cells]
    norm_num
  obtain ⟨h4, h5⟩ := h3 hlen
  exact ⟨h1 (0, 0), h2 (0, 0), h4, h5⟩

/-! ## C2: best grids versus the per-label dictionaries -/

lemma dictInsert_of_not_mem {α : Type} (d : List (String × α)) (k : String) (v : α)
    (h : k ∉ d.map Prod.fst) : dictInsert d k v = d ++ [(k, v)] := by
  induction d with
  | nil => rfl
  | cons a d ih =>
    obtain ⟨k1, v1⟩ := a
    have h1 : ¬ k1 = k := fun he => h (by simp [he])
    have h2 : k ∉ d.map Prod.fst := fun hm => h (by simp [hm])
    unfold dictInsert
    rw [if_neg h1, ih h2]
    rfl

lemma foldl_dictInsert {α β : Type} (key : α → String) (val : α → β) :
    ∀ (l : List α) (d : List (String × β)),
      (l.map key).Nodup → (∀ a ∈ l, key a ∉ d.map Prod.fst) →
      l.foldl (fun acc a => dictInsert acc (key a) (val a)) d =
        d ++ l.map (fun a => (key a, val a))
  | [], d, _, _ => by simp
  | a :: l, d, hnd, hdisj => by
    have hnd2 : (l.map key).Nodup := (List.nodup_cons.mp (by simpa using hnd)).2
    have hha : key a ∉ l.map key := (List.nodup_cons.mp (by simpa using hnd)).1
    have hdisj2 : ∀ b ∈ l, key b ∉ (d ++ [(key a, val a)]).map Prod.fst := by
      intro b hb
      rw [List.map_append, List.mem_append]
      rintro (hmem | hmem)
      · exact hdisj b (List.mem_cons_of_mem a hb) hmem
      · simp only [List.map_cons, List.map_nil, List.mem_singleton] at hmem
        exact hha (hmem ▸ List.mem_map_of_mem key hb)
    rw [List.foldl_cons, dictInsert_of_not_mem d (key a) (val a) (hdisj a (by simp)),
      foldl_dictInsert key val l (d ++ [(key a, val a)]) hnd2 hdisj2]
    simp

/-- The effective labels `run` keys its RSSI dictionary by: the transmitter's
`label`, or the generated `tx_<index>` when the label is empty. -/
def effLabels (sim : Simulation) : List String :=
  (withIndex sim.env.transmitters).map (fun p => labelOf p.1 p.2)

lemma run_rssi_of_nodup (sim : Simulation) (rng : RandomState)
    (hnd : (effLabels sim).Nodup) :
    (sim.run rng).rssi = (withIndex sim.env.transmitters).map
      (fun p => (labelOf p.1 p.2, sim.rssiCell rng p.1 p.2)) := by
  have h2 : ((withIndex sim.env.transmitters).map
      (fun p : ℕ × Transmitter => labelOf p.1 p.2)).Nodup := hnd
  rw [run_rssi,
    foldl_dictInsert (fun p => labelOf p.1 p.2) (fun p => sim.rssiCell rng p.1 p.2)
      (withIndex sim.env.transmitters) [] h2 (by simp)]
  simp

/-- C2 (amended): the best-SNR grid always equals the element-wise maximum of
the per-label SNR grids present in the result; the best-RSSI grid equals the
element-wise maximum of the per-label RSSI grids whenever the effective labels
are pairwise distinct. (With a duplicated label, best-RSSI is instead the
maximum over all transmitters' grids, including the grid the label collision
evicted from the dictionary — see the counterexample.) -/
theorem best_grids_elementwise_max :
    ∀ (sim : Simulation) (rng : RandomState) (c : ℚ × ℚ),
      sim.env.transmitters ≠ [] →
      ((effLabels sim).Nodup →
        (sim.run rng).best_rssi c =
          maxRed ((sim.run rng).rssi.map (fun p => p.2 c)) (sim.noise_floor_dbm : ℝ)) ∧
      (sim.run rng).best_snr c =
        maxRed ((sim.run rng).snr.map (fun p => p.2 c)) 0 := by
  intro sim rng c _
  refine ⟨fun hnd => ?_, congrFun (run_best_snr sim rng) c⟩
  rw [run_rssi_of_nodup sim rng hnd, run_best_rssi]
  simp only [List.map_map]
  rfl

/-- A generic 868 MHz protocol configuration. -/
def protoG : Protocol := ⟨"generic", 868, 125, 14, -130⟩

/-- 30 dBm transmitter labelled `"a"` at the origin. -/
def txA : Transmitter := ⟨0, 0, protoG, 30, "a", 0⟩

/-- 10 dBm transmitter also labelled `"a"` at the origin. -/
def txB : Transmitter := ⟨0, 0, protoG, 10, "a", 0⟩

/-- 1×1 environment with two transmitters sharing the label `"a"`. -/
def envDup : Environment := ⟨1, 1, 1, [txA, txB], [], [], []⟩

/-- Default-parameter simulation over `envDup`. -/
noncomputable def simDup : Simulation := ⟨envDup, "log-distance", 27/10, -120, 0, false, 6⟩

/-- Unlabelled 14 dBm transmitter at the origin. -/
def txSolo : Transmitter := ⟨0, 0, protoG, 14, "", 0⟩

/-- 1×1 environment with a single transmitter. -/
def envSolo : Environment := ⟨1, 1, 1, [txSolo], [], [], []⟩

/-- Default-parameter simulation over `envSolo`. -/
noncomputable def simSolo : Simulation := ⟨envSolo, "log-distance", 27/10, -120, 0, false, 6⟩

/-- Counterexample for C2 as stated: with two transmitters sharing label `"a"`
(30 dBm and 10 dBm at the same position), the label collision evicts the 30 dBm
grid from `result.rssi`, yet `best_rssi` still maxes over both transmitters'
grids, so it differs from the element-wise maximum of the per-label grids
present in the result. -/
theorem best_rssi_dup_label_counterexample :
    (simDup.run zeroRng).best_rssi (0, 0) ≠
      maxRed ((simDup.run zeroRng).rssi.map (fun p => p.2 (0, 0))) ((-120 : ℚ) : ℝ) := by
  have hdict : (simDup.run zeroRng).rssi = [("a", simDup.rssiCell zeroRng 1 txB)] := rfl
  have hL : (simDup.run zeroRng).best_rssi (0, 0) =
      max (simDup.rssiCell zeroRng 0 txA (0, 0)) (simDup.rssiCell zeroRng 1 txB (0, 0)) :=
    congrFun (run_best_rssi simDup zeroRng) (0, 0)
  have hR : maxRed ((simDup.run zeroRng).rssi.map (fun p => p.2 (0, 0))) ((-120 : ℚ) : ℝ) =
      simDup.rssiCell zeroRng 1 txB (0, 0) := by
    rw [hdict]
    rfl
  have hdiff : simDup.rssiCell zeroRng 0 txA (0, 0) =
      simDup.rssiCell zeroRng 1 txB (0, 0) + 20 := by
    have hstd : ¬ (0 : ℚ) < simDup.shadow_fading_std := by norm_num [simDup]
    have hmp : simDup.multipath_fading = false := rfl
    unfold Simulation.rssiCell
    simp only [hmp, Bool.false_eq_true, if_false, if_neg hstd, txA, txB,
      Transmitter.eirp_dbm]
    push_cast
    ring
  rw [hL, hR, hdiff, max_eq_left (by linarith)]
  intro h
  have : (20 : ℝ) = 0 := by linarith
  norm_num at this

/-- Witness for C2 on the single-transmitter environment. -/
theorem best_grids_elementwise_max_witness :
    ((simSolo.run zeroRng).best_rssi (0, 0) =
      maxRed ((simSolo.run zeroRng).rssi.map (fun p => p.2 (0, 0))) ((-120 : ℚ) : ℝ)) ∧
    ((simSolo.run zeroRng).best_snr (0, 0) =
      maxRed ((simSolo.run zeroRng).snr.map (fun p => p.2 (0, 0))) 0) := by
  have h := best_grids_elementwise_max simSolo zeroRng (0, 0) (by simp [simSolo, envSolo])
  exact ⟨h.1 (by simp [effLabels, simSolo, envSolo, withIndex, withIndexFrom]), h.2⟩

end LpwanSim
